import Mathlib

/-!
# asmlib-opencv: `src/lib/asmmodel.h`

A shallow embedding of the declarations of `asmmodel.h` (namespace `ASMLib`):
the verbosity constants, the class `ASMFitResult` with its two constructors and
`setModel`, and the class `ASMModel` with its empty constructor.

The header only declares `toPointList`, `fit`, `fitAll` and
`findParamForShapeBTSM`; their bodies live in `asmmodel.cpp`.  Definitions that
stand for such a body say so in their doc comment.
-/

namespace ASMLib

/-! ## Verbosity constants (`#define ASM_FIT_VERBOSE_*`) -/

/-- The macro `ASM_FIT_VERBOSE_NOVERBOSE`, defined as `0`. -/
def ASM_FIT_VERBOSE_NOVERBOSE : Int := 0

/-- The macro `ASM_FIT_VERBOSE_AT_LEVEL`, defined as `1`. -/
def ASM_FIT_VERBOSE_AT_LEVEL : Int := 1

/-- The macro `ASM_FIT_VERBOSE_AT_ITERATION`, defined as `2`. -/
def ASM_FIT_VERBOSE_AT_ITERATION : Int := 2

/-- The macro `ASM_FIT_VERBOSE_AT_POINT`, defined as `3`. -/
def ASM_FIT_VERBOSE_AT_POINT : Int := 3

/-- The default argument of `fitAll`: `int verbose=0`. -/
def fitAll_verbose_default : Int := 0

/-- The default argument of `fit`: `int verbose=0`. -/
def fit_verbose_default : Int := 0

/-! ## `ASMFitResult` -/

/-- A value of type `ASMModel *`: `NULL`, or the address of a model. -/
inductive ModelPtr where
  | NULL : ModelPtr
  | addr (a : Nat) : ModelPtr
  deriving DecidableEq, Repr

/-- Modelled from the spec: the base class `FitResult`, declared in
`shapemodel.h`.  A fit result owns the final `(b, Pose)` pair; the type `B` of
the shape parameters and the type `P` of the pose are left open. -/
structure FitResult (B P : Type) where
  params : B
  transformation : P
  deriving DecidableEq, Repr

/-- The class `ASMFitResult : public FitResult` with its private member
`ASMModel *asmModel`. -/
structure ASMFitResult (B P : Type) extends FitResult B P where
  asmModel : ModelPtr
  deriving DecidableEq, Repr

/-- The constructor `ASMFitResult() : asmModel(NULL) {}`.  The base subobject is
default-constructed; `fr0` is the value the default constructor of `FitResult`
produces. -/
def ASMFitResult.new {B P : Type} (fr0 : FitResult B P) : ASMFitResult B P :=
  { toFitResult := fr0, asmModel := ModelPtr.NULL }

/-- The constructor `ASMFitResult(ASMModel *model): asmModel(model) {}`. -/
def ASMFitResult.ofModel {B P : Type} (fr0 : FitResult B P) (model : ModelPtr) :
    ASMFitResult B P :=
  { toFitResult := fr0, asmModel := model }

/-- The member `void setModel(ASMModel *model) { asmModel = model; }`, as a
function from the object before the call to the object after it. -/
def ASMFitResult.setModel {B P : Type} (r : ASMFitResult B P) (model : ModelPtr) :
    ASMFitResult B P :=
  { r with asmModel := model }

/-- A call of the member `void toPointList(vector< Point_<int> > &pV) const` on
the object `r` with the output argument `pV`, for a given function body.  The
member is `const`, so the object after the call is the object before it; the
body determines the new contents of `pV` or raises. -/
def ASMFitResult.toPointListCall {B P E PV : Type}
    (body : ASMFitResult B P → PV → Except E PV) (r : ASMFitResult B P) (pV : PV) :
    Except E (ASMFitResult B P × PV) :=
  match body r pV with
  | .ok pV1 => .ok (r, pV1)
  | .error e => .error e

/-! ## `ASMModel` -/

/-- The class `ASMModel : public ShapeModel` with its private data members.
`SM` is the base class `ShapeModel`, `M` the matrix type `Mat_<double>`, `PCA`
the OpenCV class `PCA` and `D` the type `double`. -/
structure ASMModel (SM M PCA D : Type) where
  toShapeModel : SM
  iCovarG : List (List M)
  meanG : List (List M)
  localFeatureRad : Int
  ns : Int
  pcaPyr : Fin 3 → PCA
  sigma2Pyr : Fin 3 → D

/-- The constructor `ASMModel():localFeatureRad(4), ns(6){}`.  The base subobject
(`sm0`) and the three `PCA` objects (`pca0`) are default-constructed, the two
vectors are default-constructed and hence empty, and `sigma2Pyr` is left
uninitialised (`sig` stands for whatever it holds). -/
def ASMModel.empty {SM M PCA D : Type} (sm0 : SM) (pca0 : PCA) (sig : Fin 3 → D) :
    ASMModel SM M PCA D :=
  { toShapeModel := sm0
    iCovarG := []
    meanG := []
    localFeatureRad := 4
    ns := 6
    pcaPyr := fun _ => pca0
    sigma2Pyr := sig }

/-! ## The fitting engine

The bodies of `toPointList`, `fit` and `fitAll` are in `asmmodel.cpp`, and the
local appearance evaluation has no declaration in the header at all.  The
definitions of this section follow the written specification of the engine.
Values of type `double` are taken as rationals, so arithmetic is exact. -/

/-- Modelled from the spec: the errors that propagate to the caller, a usage
error or a configuration/model error.  The header declares no error type. -/
inductive FitError where
  | usage : FitError
  | configuration : FitError
  deriving DecidableEq, Repr

/-- A 2-D point with real coordinates. -/
abbrev Point2d : Type := ℚ × ℚ

/-- A 2-D point with integer coordinates, `Point_<int>`. -/
abbrev Point2i : Type := Int × Int

/-- A shape vector: one point per landmark, in landmark order. -/
abbrev ShapeVec : Type := List Point2d

/-- A dense matrix of `double`, row by row. -/
abbrev Mat_ : Type := List (List ℚ)

/-- Modelled from the spec: the capabilities of the base `ShapeModel` (declared
in `shapemodel.h`) that a fit result needs, for the model stored at each
address: reconstructing a model-space shape from the parameters `b`, and
applying a pose to a point.  Both are external to the engine and left open. -/
structure ShapeModelOps (B P : Type) where
  reconstruct : Nat → B → ShapeVec
  applyPose : P → Point2d → Point2d

/-- Rounding of a point to integer coordinates. -/
def roundPoint (p : Point2d) : Point2i := (round p.1, round p.2)

/-- Modelled from the spec: the body of `ASMFitResult::toPointList`, which is in
`asmmodel.cpp`.  It signals a usage error when the result has no associated
model; otherwise the output is `round(Pose ∘ ShapeModel.reconstruct(b))`,
whatever `pV` held before. -/
def ASMFitResult.toPointList {B P : Type} (ops : ShapeModelOps B P)
    (r : ASMFitResult B P) (_pV : List Point2i) : Except FitError (List Point2i) :=
  match r.asmModel with
  | ModelPtr.NULL => .error FitError.usage
  | ModelPtr.addr a =>
    .ok ((ops.reconstruct a r.params).map
      (fun p => roundPoint (ops.applyPose r.transformation p)))

/-- The scalar product of two vectors given as lists. -/
def dot (a b : List ℚ) : ℚ := (List.zipWith (fun u v => u * v) a b).sum

/-- Modelled from the spec: the squared Mahalanobis distance, computed as the
scalar product of `d = x - μ` with the matrix-vector product `Σ⁻¹ d`. -/
def mahalanobis (x mu : List ℚ) (icovar : Mat_) : ℚ :=
  let d := List.zipWith (fun u v => u - v) x mu
  dot d (icovar.map (fun row => dot row d))

/-- The entry of a table `vector< vector< Mat_<double> > >` for a landmark and
a pyramid level, when both are in range. -/
def tableEntry {M : Type} (g : List (List M)) (landmark level : Nat) : Option M :=
  match g[landmark]? with
  | some pyr => pyr[level]?
  | none => none

/-- Modelled from the spec: the local appearance evaluation
`evaluate(landmarkIndex, level, candidateProfile)`, which the header does not
declare.  It reads the mean from `meanG` and the inverse covariance from
`iCovarG` and returns the squared Mahalanobis distance; an index outside the
trained range is a configuration error.  A mean is stored as a one-row or
one-column matrix and read entry by entry. -/
def evaluate {SM PCA D : Type} (m : ASMModel SM Mat_ PCA D)
    (landmarkIndex level : Nat) (candidateProfile : List ℚ) : Except FitError ℚ :=
  match tableEntry m.meanG landmarkIndex level, tableEntry m.iCovarG landmarkIndex level with
  | some mu, some ic => .ok (mahalanobis candidateProfile mu.flatten ic)
  | _, _ => .error FitError.configuration

/-- Modelled from the spec: a call of the local appearance evaluation on the
model `m`, as the model after the call together with what the call returned.
The evaluation is a pure read of the tables. -/
def evaluateCall {SM PCA D : Type} (m : ASMModel SM Mat_ PCA D)
    (landmarkIndex level : Nat) (candidateProfile : List ℚ) :
    ASMModel SM Mat_ PCA D × Except FitError ℚ :=
  (m, evaluate m landmarkIndex level candidateProfile)

/-- Modelled from the spec: one record of the diagnostic channel, per pyramid
level, per iteration, per candidate evaluation, or for an exhausted iteration
budget. -/
inductive LogEntry where
  | atLevel (level : Nat) : LogEntry
  | atIteration (level iteration : Nat) (displacement : ℚ) : LogEntry
  | atPoint (level iteration landmark : Nat) (offset : Int) (distance : ℚ) : LogEntry
  | notConverged (level : Nat) : LogEntry
  deriving DecidableEq, Repr

/-- Modelled from the spec: the records written for an event of detail `detail`
under the verbosity `verbose`, the record itself when the verbosity reaches
that detail and nothing otherwise. -/
def emit (verbose detail : Int) (e : LogEntry) : List LogEntry :=
  if detail ≤ verbose then [e] else []

/-- Modelled from the spec: a candidate position of one landmark on the normal
to the boundary, with its signed offset from the current position, the
position, and the local profile sampled there. -/
structure Candidate where
  offset : Int
  pos : Point2d
  profile : List ℚ
  deriving DecidableEq, Repr

/-- Modelled from the spec: an axis-aligned bounding rectangle
`(x, y, width, height)` in pixels, for `cv::Rect`. -/
structure Rect where
  x : Int
  y : Int
  width : Int
  height : Int
  deriving DecidableEq, Repr

/-- Modelled from the spec: a region clamped into an image of `cols` by `rows`
pixels, that is, its intersection with the image.  A rectangle that lies
entirely outside the image is clamped to an empty rectangle on the nearest
border; a rectangle inside the image is left as it is. -/
def clampRect (cols rows : Nat) (r : Rect) : Rect :=
  let x0 : Int := max 0 (min r.x cols)
  let y0 : Int := max 0 (min r.y rows)
  let x1 : Int := max x0 (min (r.x + r.width) cols)
  let y1 : Int := max y0 (min (r.y + r.height) rows)
  { x := x0, y := y0, width := x1 - x0, height := y1 - y0 }

/-- Modelled from the spec: a trained model together with the configuration and
the external collaborators of the fitting engine, which are left open.  `Img`
is the image type, `B` the shape parameters and `P` the pose. -/
structure FitEnv (SM PCA Img B P : Type) where
  /-- The trained tables. -/
  model : ASMModel SM Mat_ PCA ℚ
  /-- The address of the model, which a result refers to. -/
  self : Nat
  /-- The number of landmarks of the shape model. -/
  nLandmarks : Nat
  /-- The configured number of pyramid levels. -/
  nLevels : Nat
  /-- The configured maximum number of iterations per level. -/
  maxIter : Nat
  /-- The configured convergence threshold. -/
  threshold : ℚ
  /-- The image of a pyramid level; level 0 is the original. -/
  pyramid : Img → Nat → Img
  /-- The default, centred initial estimate over an image patch. -/
  initial : Img → FitResult B P
  /-- The working shape of an estimate at the resolution of a level. -/
  toLevel : Nat → FitResult B P → ShapeVec
  /-- The candidate positions of a landmark, clamped to the image. -/
  candidates : Img → Nat → ShapeVec → Nat → List Candidate
  /-- The parameter estimator: observed shape and previous estimate to the new
  estimate, at a level. -/
  estimate : Nat → ShapeVec → FitResult B P → FitResult B P
  /-- The mean displacement per landmark between two shapes. -/
  displacement : ShapeVec → ShapeVec → ℚ
  /-- The width of an image in pixels. -/
  cols : Img → Nat
  /-- The height of an image in pixels. -/
  rows : Img → Nat
  /-- The image patch under a rectangle that lies within the image. -/
  crop : Img → Rect → Img
  /-- The pose of a patch-relative result, moved to its region in the image. -/
  place : Rect → P → P

/-- Modelled from the spec: whether a candidate at distance `d` and offset `o`
beats the best one so far, at distance `d0` and offset `o0`.  A smaller distance
wins, and at equal distance the smaller displacement. -/
def better (d : ℚ) (o : Int) (d0 : ℚ) (o0 : Int) : Bool :=
  decide (d < d0) || (decide (d = d0) && decide (o.natAbs < o0.natAbs))

/-- Modelled from the spec: step 2a of the pyramid search for one landmark, over
the candidates still to be evaluated and the best one so far.  Every candidate
is scored by the local appearance evaluation. -/
def searchCandidates {SM PCA Img B P : Type} (env : FitEnv SM PCA Img B P)
    (level iteration landmark : Nat) (verbose : Int) :
    List Candidate → Option (ℚ × Candidate) →
      Except FitError (Option (ℚ × Candidate)) × List LogEntry
  | [], best => (.ok best, [])
  | c :: cs, best =>
    match evaluate env.model landmark level c.profile with
    | .error e => (.error e, [])
    | .ok d =>
      let best1 : Option (ℚ × Candidate) :=
        match best with
        | none => some (d, c)
        | some (d0, c0) =>
          if better d c.offset d0 c0.offset then some (d, c) else some (d0, c0)
      let out := searchCandidates env level iteration landmark verbose cs best1
      (out.1, emit verbose ASM_FIT_VERBOSE_AT_POINT
        (LogEntry.atPoint level iteration landmark c.offset d) ++ out.2)

/-- Modelled from the spec: steps 2a and 2b of the pyramid search, over the
landmarks still to be searched.  The new position of a landmark is that of its
best candidate, or its current position when it has no candidate. -/
def searchShape {SM PCA Img B P : Type} (env : FitEnv SM PCA Img B P)
    (img : Img) (level iteration : Nat) (shape : ShapeVec) (verbose : Int) :
    List Nat → Except FitError ShapeVec × List LogEntry
  | [] => (.ok [], [])
  | i :: is =>
    match searchCandidates env level iteration i verbose
        (env.candidates img level shape i) none with
    | (.error e, log) => (.error e, log)
    | (.ok best, log) =>
      let p : Point2d :=
        match best with
        | some (_, c) => c.pos
        | none => shape.getD i (0, 0)
      match searchShape env img level iteration shape verbose is with
      | (.error e, log1) => (.error e, log ++ log1)
      | (.ok ps, log1) => (.ok (p :: ps), log ++ log1)

/-- Modelled from the spec: step 2 of the pyramid search at one level, with
`budget` iterations left.  An exhausted budget is not an error: the last
estimate is returned and the fact goes to the diagnostic channel. -/
def iterate {SM PCA Img B P : Type} (env : FitEnv SM PCA Img B P)
    (img : Img) (level : Nat) (verbose : Int) :
    Nat → Nat → FitResult B P → ShapeVec →
      Except FitError (FitResult B P) × List LogEntry
  | 0, _, est, _ =>
    (.ok est, emit verbose ASM_FIT_VERBOSE_AT_LEVEL (LogEntry.notConverged level))
  | budget + 1, iteration, est, shape =>
    match searchShape env img level iteration shape verbose
        (List.range env.nLandmarks) with
    | (.error e, log) => (.error e, log)
    | (.ok observed, log) =>
      let est1 := env.estimate level observed est
      let shape1 := env.toLevel level est1
      let moved := env.displacement shape shape1
      let log1 := log ++ emit verbose ASM_FIT_VERBOSE_AT_ITERATION
        (LogEntry.atIteration level iteration moved)
      if moved < env.threshold then (.ok est1, log1)
      else
        let out := iterate env img level verbose budget (iteration + 1) est1 shape1
        (out.1, log1 ++ out.2)

/-- Modelled from the spec: the pyramid search over the levels still to be
visited, each seeded by the estimate of the level before. -/
def fitLevels {SM PCA Img B P : Type} (env : FitEnv SM PCA Img B P)
    (img : Img) (verbose : Int) :
    List Nat → FitResult B P → Except FitError (FitResult B P) × List LogEntry
  | [], est => (.ok est, [])
  | level :: levels, est =>
    let head := emit verbose ASM_FIT_VERBOSE_AT_LEVEL (LogEntry.atLevel level)
    match iterate env (env.pyramid img level) level verbose env.maxIter 0 est
        (env.toLevel level est) with
    | (.error e, log) => (.error e, head ++ log)
    | (.ok est1, log) =>
      let out := fitLevels env img verbose levels est1
      (out.1, head ++ log ++ out.2)

/-- Modelled from the spec: the body of `ASMModel::fit`, which is in
`asmmodel.cpp`.  One pyramid search from the coarsest level down to level 0,
started from the default estimate; the result refers to the model.  The second
component is what the call wrote to the diagnostic channel. -/
def fit {SM PCA Img B P : Type} (env : FitEnv SM PCA Img B P)
    (img : Img) (verbose : Int) :
    Except FitError (ASMFitResult B P) × List LogEntry :=
  match fitLevels env img verbose (List.range env.nLevels).reverse (env.initial img) with
  | (.error e, log) => (.error e, log)
  | (.ok est, log) =>
    (.ok { toFitResult := est, asmModel := ModelPtr.addr env.self }, log)

/-- Modelled from the spec: the loop of `ASMModel::fitAll` over the regions
still to be fitted, with the results collected so far.  Each region is clamped
into the image and cropped, the patch is fitted on its own, the pose of the
result is moved to the region, and the result is appended.  A configuration
error of a fit propagates to the caller. -/
def fitAllLoop {SM PCA Img B P : Type} (env : FitEnv SM PCA Img B P)
    (img : Img) (verbose : Int) :
    List Rect → List (ASMFitResult B P) →
      Except FitError (List (ASMFitResult B P)) × List LogEntry
  | [], fitResultV => (.ok fitResultV, [])
  | r :: rs, fitResultV =>
    let region := clampRect (env.cols img) (env.rows img) r
    match fit env (env.crop img region) verbose with
    | (.error e, log) => (.error e, log)
    | (.ok res, log) =>
      let placed : ASMFitResult B P :=
        { res with transformation := env.place region res.transformation }
      let out := fitAllLoop env img verbose rs (fitResultV ++ [placed])
      (out.1, log ++ out.2)

/-- Modelled from the spec: the body of `ASMModel::fitAll`, which is in
`asmmodel.cpp`. -/
def fitAll {SM PCA Img B P : Type} (env : FitEnv SM PCA Img B P)
    (img : Img) (detectedObjs : List Rect) (verbose : Int) :
    Except FitError (List (ASMFitResult B P)) × List LogEntry :=
  fitAllLoop env img verbose detectedObjs []

/-- A model with two landmarks and three levels.  The six means and the six
inverse covariances are pairwise different, so an entry tells its landmark and
its level. -/
def exampleModel : ASMModel Unit Mat_ Unit ℚ :=
  { toShapeModel := ()
    iCovarG :=
      [[[[2, 0], [0, 1]], [[3, 0], [0, 1]], [[4, 0], [0, 1]]],
       [[[1, 0], [0, 2]], [[1, 0], [0, 3]], [[1, 1], [1, 4]]]]
    meanG :=
      [[[[1, 2]], [[1, 3]], [[1, 4]]],
       [[[2, 1]], [[2, 2]], [[2, 3]]]]
    localFeatureRad := 4
    ns := 6
    pcaPyr := fun _ => ()
    sigma2Pyr := fun _ => 1 }

/-- The shape-model capabilities of the example: the reconstruction of `b` is
the single point `(sum b, 0)`, and a pose translates. -/
def exampleOps : ShapeModelOps (List ℚ) Point2d :=
  { reconstruct := fun _ b => [(b.sum, 0)]
    applyPose := fun t p => (p.1 + t.1, p.2 + t.2) }

/-- A result that refers to the model at address `1`. -/
def exampleResult : ASMFitResult (List ℚ) Point2d :=
  ASMFitResult.ofModel { params := [1 / 2], transformation := (2, 3) } (ModelPtr.addr 1)

/-! ## Properties of the declarations of the header -/

/-- C8: the four verbosity macros are `0 < 1 < 2 < 3`, hence pairwise distinct
and increasing with the level of detail, and the default verbosity of both `fit`
and `fitAll` is `ASM_FIT_VERBOSE_NOVERBOSE`. -/
theorem verbosity_levels_increasing :
    ASM_FIT_VERBOSE_NOVERBOSE = 0 ∧ ASM_FIT_VERBOSE_AT_LEVEL = 1 ∧
    ASM_FIT_VERBOSE_AT_ITERATION = 2 ∧ ASM_FIT_VERBOSE_AT_POINT = 3 ∧
    ASM_FIT_VERBOSE_NOVERBOSE < ASM_FIT_VERBOSE_AT_LEVEL ∧
    ASM_FIT_VERBOSE_AT_LEVEL < ASM_FIT_VERBOSE_AT_ITERATION ∧
    ASM_FIT_VERBOSE_AT_ITERATION < ASM_FIT_VERBOSE_AT_POINT ∧
    [ASM_FIT_VERBOSE_NOVERBOSE, ASM_FIT_VERBOSE_AT_LEVEL,
      ASM_FIT_VERBOSE_AT_ITERATION, ASM_FIT_VERBOSE_AT_POINT].Nodup ∧
    fit_verbose_default = ASM_FIT_VERBOSE_NOVERBOSE ∧
    fitAll_verbose_default = ASM_FIT_VERBOSE_NOVERBOSE := by
  decide

/-- C9: `setModel` sets the model reference to its argument and leaves the
inherited shape parameters and pose as they were; a default-constructed result
followed by `setModel(m)` is `ASMFitResult(m)`; of two calls in a row the last
one wins, and calling it twice with the same model is calling it once. -/
theorem setModel_frame {B P : Type} (fr0 : FitResult B P) (r : ASMFitResult B P)
    (m m2 : ModelPtr) :
    (r.setModel m).asmModel = m ∧
    (r.setModel m).params = r.params ∧
    (r.setModel m).transformation = r.transformation ∧
    (r.setModel m).toFitResult = r.toFitResult ∧
    (ASMFitResult.new fr0).setModel m = ASMFitResult.ofModel fr0 m ∧
    (r.setModel m).setModel m2 = r.setModel m2 ∧
    (r.setModel m).setModel m = r.setModel m := by
  refine ⟨rfl, rfl, rfl, rfl, rfl, rfl, rfl⟩

/-- C10: a model built by the empty constructor has `localFeatureRad = 4` and
`ns = 6`, and both `iCovarG` and `meanG` are empty, hence of equal length. -/
theorem ASMModel_empty_defaults {SM M PCA D : Type} (sm0 : SM) (pca0 : PCA)
    (sig : Fin 3 → D) :
    (ASMModel.empty sm0 pca0 sig : ASMModel SM M PCA D).localFeatureRad = 4 ∧
    (ASMModel.empty sm0 pca0 sig : ASMModel SM M PCA D).ns = 6 ∧
    (ASMModel.empty sm0 pca0 sig : ASMModel SM M PCA D).iCovarG = [] ∧
    (ASMModel.empty sm0 pca0 sig : ASMModel SM M PCA D).meanG = [] ∧
    (ASMModel.empty sm0 pca0 sig : ASMModel SM M PCA D).iCovarG.length =
      (ASMModel.empty sm0 pca0 sig : ASMModel SM M PCA D).meanG.length := by
  refine ⟨rfl, rfl, rfl, rfl, rfl⟩

/-- C4, refuted as stated: `setModel` on a default-constructed result changes
its model reference from `NULL` to the address passed, so the state after the
call differs from the state before. -/
theorem setModel_changes_state :
    ((ASMFitResult.new (FitResult.mk [(0 : Int)] (1 : Int))).setModel (ModelPtr.addr 1)).asmModel
        ≠ (ASMFitResult.new (FitResult.mk [(0 : Int)] (1 : Int))).asmModel ∧
    (ASMFitResult.new (FitResult.mk [(0 : Int)] (1 : Int))).setModel (ModelPtr.addr 1)
        ≠ ASMFitResult.new (FitResult.mk [(0 : Int)] (1 : Int)) := by
  decide

/-- C4, amended: `setModel(m)` leaves the shape parameters and the pose as they
were and makes `m` the model reference, so it leaves the result unchanged exactly
when `m` is the reference the result already holds; and a call of the `const`
member `toPointList`, whatever its body, hands back the result it was called
on whenever it returns. -/
theorem ASMFitResult_state_after_call {B P E PV : Type} (r : ASMFitResult B P)
    (m : ModelPtr) (body : ASMFitResult B P → PV → Except E PV) (pV : PV) :
    (r.setModel m).params = r.params ∧
    (r.setModel m).transformation = r.transformation ∧
    (r.setModel m).asmModel = m ∧
    (r.setModel m = r ↔ m = r.asmModel) ∧
    (ASMFitResult.toPointListCall body r pV).map Prod.fst = (body r pV).map (fun _ => r) := by
  refine ⟨rfl, rfl, rfl, ?_, ?_⟩
  · constructor
    · intro h
      have h1 := congrArg ASMFitResult.asmModel h
      exact h1
    · intro h
      subst h
      rfl
  · unfold ASMFitResult.toPointListCall
    cases body r pV <;> rfl

/-! ## Properties of `toPointList` and of the local appearance evaluation -/

/-- Combining two tabulated lists entry by entry tabulates the combination. -/
theorem zipWith_ofFn_ofFn {α β γ : Type} (f : α → β → γ) {n : Nat}
    (a : Fin n → α) (b : Fin n → β) :
    List.zipWith f (List.ofFn a) (List.ofFn b) = List.ofFn (fun i => f (a i) (b i)) := by
  apply List.ext_getElem
  · simp
  · intro i h1 h2
    simp

/-- The scalar product of two tabulated lists is the sum over the indices. -/
theorem dot_ofFn {n : Nat} (a b : Fin n → ℚ) :
    dot (List.ofFn a) (List.ofFn b) = Matrix.dotProduct a b := by
  unfold dot
  rw [zipWith_ofFn_ofFn, List.sum_ofFn]
  rfl

/-- On tabulated data the list computation is the quadratic form. -/
theorem mahalanobis_ofFn {n : Nat} (x mu : Fin n → ℚ) (ic : Matrix (Fin n) (Fin n) ℚ) :
    mahalanobis (List.ofFn x) (List.ofFn mu) (List.ofFn (fun a => List.ofFn (ic a))) =
      Matrix.dotProduct (x - mu) (ic.mulVec (x - mu)) := by
  unfold mahalanobis
  simp only [zipWith_ofFn_ofFn, List.map_ofFn]
  have h : ((fun row => dot row (List.ofFn fun i => x i - mu i)) ∘ fun a => List.ofFn (ic a))
      = ic.mulVec (x - mu) := by
    funext a
    simp only [Function.comp]
    rw [dot_ofFn]
    rfl
  rw [h, dot_ofFn]
  rfl

/-- C1: `toPointList` reports the usage error exactly when the result holds no
model reference.  It does so on a default-constructed result; on a result built
from a non-null model, and after `setModel` with a non-null model, it returns a
point list instead. -/
theorem toPointList_usage_error_iff {B P : Type} (ops : ShapeModelOps B P)
    (fr0 : FitResult B P) (r : ASMFitResult B P) (pV : List Point2i) (a : Nat) :
    (ASMFitResult.toPointListCall (ASMFitResult.toPointList ops) r pV
        = .error FitError.usage ↔ r.asmModel = ModelPtr.NULL) ∧
    ASMFitResult.toPointListCall (ASMFitResult.toPointList ops) (ASMFitResult.new fr0) pV
        = .error FitError.usage ∧
    (∃ pts, ASMFitResult.toPointListCall (ASMFitResult.toPointList ops)
        (ASMFitResult.ofModel fr0 (ModelPtr.addr a)) pV
        = .ok (ASMFitResult.ofModel fr0 (ModelPtr.addr a), pts)) ∧
    (∃ pts, ASMFitResult.toPointListCall (ASMFitResult.toPointList ops)
        (r.setModel (ModelPtr.addr a)) pV
        = .ok (r.setModel (ModelPtr.addr a), pts)) := by
  refine ⟨?_, rfl, ⟨_, rfl⟩, ⟨_, rfl⟩⟩
  unfold ASMFitResult.toPointListCall ASMFitResult.toPointList
  cases h : r.asmModel with
  | NULL => simp
  | addr b => simp

/-- C3: on a result with an associated model, a call of `toPointList` returns
the same point list whatever the output argument held, and leaves the result as
it was; so a second call right after the first returns the identical list. -/
theorem toPointList_deterministic {B P : Type} (ops : ShapeModelOps B P)
    (r : ASMFitResult B P) (pV : List Point2i) (h : r.asmModel ≠ ModelPtr.NULL) :
    ∃ pts,
      ASMFitResult.toPointListCall (ASMFitResult.toPointList ops) r pV = .ok (r, pts) ∧
      ASMFitResult.toPointListCall (ASMFitResult.toPointList ops) r pts = .ok (r, pts) ∧
      ∀ pV2, ASMFitResult.toPointListCall (ASMFitResult.toPointList ops) r pV2
        = .ok (r, pts) := by
  unfold ASMFitResult.toPointListCall ASMFitResult.toPointList
  cases hm : r.asmModel with
  | NULL => exact absurd hm h
  | addr b => exact ⟨_, rfl, rfl, fun _ => rfl⟩

/-- The entry of a table, read with the landmark as the outer index and the
level as the inner one. -/
theorem tableEntry_eq_of_getElem {M : Type} (g : List (List M)) (landmark level : Nat)
    (pyr : List M) (e : M) (h1 : g[landmark]? = some pyr) (h2 : pyr[level]? = some e) :
    tableEntry g landmark level = some e := by
  unfold tableEntry
  rw [h1]
  exact h2

/-- C6: let `meanG[landmark][level]` hold the mean `μ` and
`iCovarG[landmark][level]` the inverse covariance `Σ⁻¹`, of the trained profile
length `n`.  For every profile `x` of length `n` the evaluation returns
`(x-μ)ᵀ Σ⁻¹ (x-μ)`, and `0` at `x = μ`.  The model after the call, `meanG` and
`iCovarG` included, is the model before, and what is returned depends on the
model through these two entries only. -/
theorem evaluate_mahalanobis {SM PCA D : Type} (m : ASMModel SM Mat_ PCA D)
    (landmark level n : Nat) (x mu : Fin n → ℚ) (ic : Matrix (Fin n) (Fin n) ℚ)
    (muPyr icPyr : List Mat_) (muM icM : Mat_)
    (hmuL : m.meanG[landmark]? = some muPyr) (hmu : muPyr[level]? = some muM)
    (hmuv : muM.flatten = List.ofFn mu)
    (hicL : m.iCovarG[landmark]? = some icPyr) (hic : icPyr[level]? = some icM)
    (hicv : icM = List.ofFn (fun a => List.ofFn (ic a))) :
    evaluate m landmark level (List.ofFn x)
      = .ok (Matrix.dotProduct (x - mu) (ic.mulVec (x - mu))) ∧
    evaluate m landmark level (List.ofFn mu) = .ok 0 ∧
    (evaluateCall m landmark level (List.ofFn x)).1 = m ∧
    (evaluateCall m landmark level (List.ofFn x)).1.meanG = m.meanG ∧
    (evaluateCall m landmark level (List.ofFn x)).1.iCovarG = m.iCovarG ∧
    (evaluateCall m landmark level (List.ofFn x)).2
      = .ok (Matrix.dotProduct (x - mu) (ic.mulVec (x - mu))) ∧
    ∀ (m2 : ASMModel SM Mat_ PCA D) (muPyr2 icPyr2 : List Mat_),
      m2.meanG[landmark]? = some muPyr2 → muPyr2[level]? = some muM →
      m2.iCovarG[landmark]? = some icPyr2 → icPyr2[level]? = some icM →
      evaluate m2 landmark level (List.ofFn x) = evaluate m landmark level (List.ofFn x) := by
  have key : ∀ (m1 : ASMModel SM Mat_ PCA D) (p1 q1 : List Mat_),
      m1.meanG[landmark]? = some p1 → p1[level]? = some muM →
      m1.iCovarG[landmark]? = some q1 → q1[level]? = some icM →
      ∀ y : Fin n → ℚ, evaluate m1 landmark level (List.ofFn y)
        = .ok (Matrix.dotProduct (y - mu) (ic.mulVec (y - mu))) := by
    intro m1 p1 q1 a1 a2 a3 a4 y
    unfold evaluate
    rw [tableEntry_eq_of_getElem m1.meanG landmark level p1 muM a1 a2,
      tableEntry_eq_of_getElem m1.iCovarG landmark level q1 icM a3 a4]
    simp only [hmuv, hicv]
    rw [mahalanobis_ofFn]
  have hx := key m muPyr icPyr hmuL hmu hicL hic
  refine ⟨hx x, ?_, rfl, rfl, rfl, hx x, ?_⟩
  · rw [hx mu]
    simp
  · intro m2 p2 q2 a1 a2 a3 a4
    rw [key m2 p2 q2 a1 a2 a3 a4 x, hx x]

/-! ## The verbosity does not reach the result -/

/-- The outcome of the search over the candidates of a landmark does not depend
on the verbosity. -/
theorem searchCandidates_verbose {SM PCA Img B P : Type} (env : FitEnv SM PCA Img B P)
    (level iteration landmark : Nat) (v1 v2 : Int)
    (cs : List Candidate) (best : Option (ℚ × Candidate)) :
    (searchCandidates env level iteration landmark v1 cs best).1
      = (searchCandidates env level iteration landmark v2 cs best).1 := by
  induction cs generalizing best with
  | nil => rfl
  | cons c cs ih =>
    simp only [searchCandidates]
    cases evaluate env.model landmark level c.profile with
    | error e => rfl
    | ok d => exact ih _

/-- The outcome of the search over the landmarks does not depend on the
verbosity. -/
theorem searchShape_verbose {SM PCA Img B P : Type} (env : FitEnv SM PCA Img B P)
    (img : Img) (level iteration : Nat) (shape : ShapeVec)
    (v1 v2 : Int) (idx : List Nat) :
    (searchShape env img level iteration shape v1 idx).1
      = (searchShape env img level iteration shape v2 idx).1 := by
  induction idx with
  | nil => rfl
  | cons i idx ih =>
    have hc := searchCandidates_verbose env level iteration i v1 v2
      (env.candidates img level shape i) none
    simp only [searchShape]
    rcases h1 : searchCandidates env level iteration i v1
      (env.candidates img level shape i) none with ⟨r1, log1⟩
    rcases h2 : searchCandidates env level iteration i v2
      (env.candidates img level shape i) none with ⟨r2, log2⟩
    rw [h1, h2] at hc
    simp only at hc
    subst hc
    cases r1 with
    | error e => rfl
    | ok best =>
      simp only
      rcases h3 : searchShape env img level iteration shape v1 idx with ⟨s1, l1⟩
      rcases h4 : searchShape env img level iteration shape v2 idx with ⟨s2, l2⟩
      rw [h3, h4] at ih
      simp only at ih
      subst ih
      cases s1 <;> rfl

/-- The outcome of the iterations at one level does not depend on the
verbosity. -/
theorem iterate_verbose {SM PCA Img B P : Type} (env : FitEnv SM PCA Img B P)
    (img : Img) (level : Nat) (v1 v2 : Int) (budget : Nat)
    (iteration : Nat) (est : FitResult B P) (shape : ShapeVec) :
    (iterate env img level v1 budget iteration est shape).1
      = (iterate env img level v2 budget iteration est shape).1 := by
  induction budget generalizing iteration est shape with
  | zero => rfl
  | succ n ih =>
    have hs := searchShape_verbose env img level iteration shape v1 v2
      (List.range env.nLandmarks)
    simp only [iterate]
    rcases h1 : searchShape env img level iteration shape v1
      (List.range env.nLandmarks) with ⟨r1, log1⟩
    rcases h2 : searchShape env img level iteration shape v2
      (List.range env.nLandmarks) with ⟨r2, log2⟩
    rw [h1, h2] at hs
    simp only at hs
    subst hs
    cases r1 with
    | error e => rfl
    | ok observed =>
      simp only
      split
      · rfl
      · exact ih _ _ _

/-- The outcome of the search over the pyramid levels does not depend on the
verbosity. -/
theorem fitLevels_verbose {SM PCA Img B P : Type} (env : FitEnv SM PCA Img B P)
    (img : Img) (v1 v2 : Int) (levels : List Nat)
    (est : FitResult B P) :
    (fitLevels env img v1 levels est).1 = (fitLevels env img v2 levels est).1 := by
  induction levels generalizing est with
  | nil => rfl
  | cons l levels ih =>
    have hi := iterate_verbose env (env.pyramid img l) l v1 v2 env.maxIter 0 est
      (env.toLevel l est)
    simp only [fitLevels]
    rcases h1 : iterate env (env.pyramid img l) l v1 env.maxIter 0 est
      (env.toLevel l est) with ⟨r1, log1⟩
    rcases h2 : iterate env (env.pyramid img l) l v2 env.maxIter 0 est
      (env.toLevel l est) with ⟨r2, log2⟩
    rw [h1, h2] at hi
    simp only at hi
    subst hi
    cases r1 with
    | error e => rfl
    | ok est1 => exact ih _

/-- The outcome of `fit` does not depend on the verbosity. -/
theorem fit_verbose {SM PCA Img B P : Type} (env : FitEnv SM PCA Img B P)
    (img : Img) (v1 v2 : Int) :
    (fit env img v1).1 = (fit env img v2).1 := by
  have hl := fitLevels_verbose env img v1 v2 (List.range env.nLevels).reverse
    (env.initial img)
  unfold fit
  rcases h1 : fitLevels env img v1 (List.range env.nLevels).reverse (env.initial img)
    with ⟨r1, log1⟩
  rcases h2 : fitLevels env img v2 (List.range env.nLevels).reverse (env.initial img)
    with ⟨r2, log2⟩
  rw [h1, h2] at hl
  simp only at hl
  subst hl
  cases r1 <;> rfl

/-- The outcome of the loop of `fitAll` does not depend on the verbosity. -/
theorem fitAllLoop_verbose {SM PCA Img B P : Type} (env : FitEnv SM PCA Img B P)
    (img : Img) (v1 v2 : Int) (rs : List Rect)
    (acc : List (ASMFitResult B P)) :
    (fitAllLoop env img v1 rs acc).1 = (fitAllLoop env img v2 rs acc).1 := by
  induction rs generalizing acc with
  | nil => rfl
  | cons r rs ih =>
    have hf := fit_verbose env
      (env.crop img (clampRect (env.cols img) (env.rows img) r)) v1 v2
    simp only [fitAllLoop]
    rcases h1 : fit env (env.crop img (clampRect (env.cols img) (env.rows img) r)) v1
      with ⟨r1, log1⟩
    rcases h2 : fit env (env.crop img (clampRect (env.cols img) (env.rows img) r)) v2
      with ⟨r2, log2⟩
    rw [h1, h2] at hf
    simp only at hf
    subst hf
    cases r1 with
    | error e => rfl
    | ok res => exact ih _

/-- C5: the verbosity has no effect on what is produced.  For every model,
image, region list and any two verbosity values (the four recognised levels
among them), `fit` yields the same outcome under both, and so does `fitAll`;
only the diagnostic channel may differ. -/
theorem verbose_no_effect {SM PCA Img B P : Type} (env : FitEnv SM PCA Img B P)
    (img : Img) (detectedObjs : List Rect) (v1 v2 : Int) :
    (fit env img v1).1 = (fit env img v2).1 ∧
    (fitAll env img detectedObjs v1).1 = (fitAll env img detectedObjs v2).1 :=
  ⟨fit_verbose env img v1 v2, fitAllLoop_verbose env img v1 v2 detectedObjs []⟩

/-! ## `fitAll` keeps every region, in order -/

/-- A region inside the image is its own clamped region. -/
theorem clampRect_of_within (cols rows : Nat) (r : Rect)
    (hx : 0 ≤ r.x) (hy : 0 ≤ r.y) (hw : 0 ≤ r.width) (hh : 0 ≤ r.height)
    (hc : r.x + r.width ≤ cols) (hr : r.y + r.height ≤ rows) :
    clampRect cols rows r = r := by
  cases r with
  | mk x y w h =>
    simp only [clampRect, Rect.mk.injEq] at *
    omega

/-- C6 at a concrete input: in the example model of two landmarks and three
levels, landmark 1 at level 2 has mean `(2, 3)` and inverse covariance
`(1 1; 1 4)`.  The profile `(3, 5)` is at squared distance
`1·1 + 2·1·2 + 4·2·2 = 21` and the mean itself at distance `0`; with the two
indices exchanged there is no entry. -/
theorem evaluate_mahalanobis_witness :
    exampleModel.meanG[1]? = some [[[2, 1]], [[2, 2]], [[2, 3]]] ∧
    exampleModel.iCovarG[1]?
      = some [[[1, 0], [0, 2]], [[1, 0], [0, 3]], [[1, 1], [1, 4]]] ∧
    evaluate exampleModel 1 2 [3, 5] = .ok 21 ∧
    evaluate exampleModel 1 2 [2, 3] = .ok 0 ∧
    evaluate exampleModel 2 1 [3, 5] = .error FitError.configuration := by
  have h := evaluate_mahalanobis exampleModel 1 2 2 ![3, 5] ![2, 3] !![1, 1; 1, 4]
    [[[2, 1]], [[2, 2]], [[2, 3]]] [[[1, 0], [0, 2]], [[1, 0], [0, 3]], [[1, 1], [1, 4]]]
    [[2, 3]] [[1, 1], [1, 4]] rfl rfl (by simp) rfl rfl (by simp)
  refine ⟨rfl, rfl, ?_, ?_, rfl⟩
  · have h1 := h.1
    have hx : List.ofFn (![3, 5] : Fin 2 → ℚ) = [3, 5] := by simp
    have hval : Matrix.dotProduct (![3, 5] - ![2, 3] : Fin 2 → ℚ)
        (Matrix.mulVec !![1, 1; 1, 4] (![3, 5] - ![2, 3])) = 21 := by
      simp [Matrix.mulVec, Matrix.dotProduct, Fin.sum_univ_two]
      norm_num
    rw [hx, hval] at h1
    exact h1
  · have h2 := h.2.1
    have hx : List.ofFn (![2, 3] : Fin 2 → ℚ) = [2, 3] := by simp
    rw [hx] at h2
    exact h2

/-- C3 at a concrete input: the example result refers to a model, and two calls
of `toPointList` on it return the same list and leave it unchanged. -/
theorem toPointList_deterministic_witness :
    exampleResult.asmModel ≠ ModelPtr.NULL ∧
    ∃ pts,
      ASMFitResult.toPointListCall (ASMFitResult.toPointList exampleOps) exampleResult []
        = .ok (exampleResult, pts) ∧
      ASMFitResult.toPointListCall (ASMFitResult.toPointList exampleOps) exampleResult pts
        = .ok (exampleResult, pts) ∧
      ∀ pV2, ASMFitResult.toPointListCall (ASMFitResult.toPointList exampleOps)
        exampleResult pV2 = .ok (exampleResult, pts) :=
  ⟨by decide, toPointList_deterministic exampleOps exampleResult [] (by decide)⟩

end ASMLib
